import Mathlib

/-!
Shallow embedding of the match-and-act pipeline of Mail_Receptionist
(files `ml.py` and `utils.py`), together with theorems settling the
frozen claims about its specification.

Conventions of the embedding:
* Python strings are Lean `String`s; Python truthiness of a string is
  the test `s ≠ ""`.
* Embedding vectors are `List ℚ` (the floats only ever enter through
  inner products and comparisons with a threshold, which the source
  treats as exact arithmetic on the fetched values).
* External collaborators (the Universal Sentence Encoder, BeautifulSoup
  text extraction, the IMAP/SMTP servers) are parameters of the
  embedded functions, or are reified as event traces plus
  failure-injection predicates, so that ordering and side-effect claims
  become statements about the produced traces.
-/

namespace MailReceptionist

/-- A fetched mail (imap-tools `MailMessage`): the fields the core
pipeline reads.  `date` is the opaque arrival timestamp. -/
structure MailMessage where
  uid : String
  from_ : String
  subject : String
  date : Nat
  text : String
  html : String
  date_str : String
deriving DecidableEq, Repr

/- ================= Text Normalizer (utils.py lines 307-322) ========== -/

/-- The character class of both `re.sub` calls in
`parse_to_normalized_text`: tab, CR, LF, NBSP and NUL are replaced by a
space. -/
def _collapse_special (c : Char) : Char :=
  if c = '\t' ∨ c = '\r' ∨ c = '\n' ∨ c = Char.ofNat 160 ∨ c = Char.ofNat 0
  then ' ' else c

/-- Models the regex replacing every run of two or more spaces with a
single space. -/
def _squeeze (l : List Char) : List Char :=
  l.foldr (fun c acc => if c = ' ' ∧ acc.head? = some ' ' then acc else c :: acc) []

/-- Python `str.strip()`: after the substitutions only spaces remain as
whitespace, so stripping spaces from both ends models it. -/
def _strip (l : List Char) : List Char :=
  ((l.dropWhile (fun c => c = ' ')).reverse.dropWhile (fun c => c = ' ')).reverse

/-- The normalization applied to a body: collapse the special character
class to spaces, squeeze space runs, strip. -/
def normalize_body (s : String) : String :=
  String.mk (_strip (_squeeze (s.data.map _collapse_special)))

/-- `parse_to_normalized_text` (utils.py lines 307-322).  `getText` is
the BeautifulSoup `get_text` collaborator.  The first component is the
returned value (`txt` stays `none` when neither body is present, since
the Python function then returns `None`); the second component is the
warning emitted in that case, naming subject and date. -/
def parse_to_normalized_text (getText : String → String) (m : MailMessage) :
    Option String × Option String :=
  if m.text ≠ "" then
    (some (normalize_body m.text), none)
  else if m.html ≠ "" then
    (some (normalize_body (getText m.html)), none)
  else
    (none, some ("Mail is completely empty: \"" ++ m.subject ++ "\", " ++ m.date_str))

/-- `_extract_text` (ml.py lines 43-56) with `cutoff_chars = None`, as
called by `categorize`: the normalized text of every mail, in order. -/
def _extract_text (getText : String → String) (emails : List MailMessage) :
    List (Option String) :=
  emails.map (fun e => (parse_to_normalized_text getText e).1)

/- ================= Similarity Classifier (ml.py lines 112-143) ======= -/

/-- `np.inner` on two (unit-normalized) vectors: the dot product. -/
def inner_product (a b : List ℚ) : ℚ :=
  (a.zip b).foldl (fun acc x => acc + x.1 * x.2) 0

/-- The inner `for k in range(len(embs_negex))` loop of `categorize`
(ml.py lines 128-136): scan the negative exemplars in order, stop at
the first one whose similarity exceeds the threshold.  Returns
`matches_neg_ex` together with the number of inner products against
negative exemplars that were computed (for the call-count claims). -/
def scanNegatives (c : List ℚ) (negex : List (List ℚ)) (threshold : ℚ) : Bool × Nat :=
  match negex with
  | [] => (false, 0)
  | n :: rest =>
    if inner_product c n > threshold then (true, 1)
    else
      let r := scanNegatives c rest threshold
      (r.1, r.2 + 1)

/-- The `for j in range(len(embs_ex))` loop of `categorize` (ml.py
lines 115-143) for one candidate embedding `c`: scan the positive
exemplars in order; at the first one exceeding the threshold, consult
the negative set and decide (the `break` ends the scan either way); if
none exceeds, the candidate is not appended.  First component: whether
the candidate is appended to `filtered_mails`; second: how many inner
products against negative exemplars were computed. -/
def scanPositives (c : List ℚ) (ex negex : List (List ℚ)) (threshold : ℚ) : Bool × Nat :=
  match ex with
  | [] => (false, 0)
  | p :: rest =>
    if inner_product c p > threshold then
      let r := scanNegatives c negex threshold
      (!r.1, r.2)
    else scanPositives c rest negex threshold

/-- The outer `for i in range(len(embs_mails))` loop of `categorize`
(ml.py lines 112-143): each candidate mail, paired with its embedding,
is appended to `filtered_mails` exactly when its positive scan
succeeds without a negative override. -/
def categorizeFilter (pairs : List (MailMessage × List ℚ))
    (embs_ex embs_negex : List (List ℚ)) (threshold : ℚ) : List MailMessage :=
  match pairs with
  | [] => []
  | (m, emb) :: rest =>
    if (scanPositives emb embs_ex embs_negex threshold).1 then
      m :: categorizeFilter rest embs_ex embs_negex threshold
    else categorizeFilter rest embs_ex embs_negex threshold

/-- `categorize` (ml.py lines 58-152), with the IMAP fetch already
performed (its results `examples`, `neg_examples`, `cat_mails` are
arguments) and the Universal Sentence Encoder abstracted as `embed`.
Mirrors: the fail-fast check on missing positive data (lines 79-81,
the raised `InvalidSettingsError` is the `Except.error` case, its
message abbreviated), text extraction, the merge of mailbox-derived
and built-in embeddings (lines 99-107), and the classification loop. -/
def categorize (embed : Option String → List ℚ) (getText : String → String)
    (threshold : ℚ) (use_builtin_embs : Bool)
    (builtin_ex builtin_negex : List (List ℚ))
    (examples neg_examples cat_mails : List MailMessage) :
    Except String (List MailMessage) :=
  if examples.isEmpty ∧ use_builtin_embs = false then
    Except.error "Fehlende Trainingsdaten"
  else
    let ex := _extract_text getText examples
    let mails := _extract_text getText cat_mails
    let negex := _extract_text getText neg_examples
    let ex_builtin_embs := if use_builtin_embs then builtin_ex else []
    let negex_builtin_embs := if use_builtin_embs then builtin_negex else []
    let embs_ex := if ¬ ex.isEmpty then ex.map embed ++ ex_builtin_embs else ex_builtin_embs
    let embs_negex := if ¬ negex.isEmpty then negex.map embed ++ negex_builtin_embs else negex_builtin_embs
    let embs_mails := mails.map embed
    Except.ok (categorizeFilter (cat_mails.zip embs_mails) embs_ex embs_negex threshold)

/- ================= Mail Action Engine (utils.py lines 132-181) ======= -/

/-- The configuration values `filter_mails` reads (utils.py lines
141-145).  A Python-falsy setting is the empty string. -/
structure FilterConfig where
  filtered_folder : String
  filter_tag : String
  inbox_folder : String
  autoresponse_filename : String
deriving DecidableEq, Repr

/-- Observable side effects of `filter_mails` on the IMAP account and
the SMTP sender, in the order they are performed. -/
inductive MailEvent where
  | append (subject folder : String) (date : Nat) (seen answered : Bool)
  | sendAutoResponse (toAddr subject : String)
  | setFolder (folder : String)
  | deleteBatch (uids : List String)
  | flagAnswered (uids : List String)
  | seenBatch (uids : List String)
  | moveBatch (uids : List String) (folder : String)
deriving DecidableEq, Repr

/-- Python `str.startswith` as used on subjects: a prefix test on the
character sequence. -/
def pystartswith (s pre : String) : Bool :=
  pre.data.isPrefixOf s.data

/-- The subject of the appended clone (utils.py lines 152-154): the
`"[<tag>] "` prefix is prepended only when the original subject does
not already start with it. -/
def taggedSubject (filter_tag subject : String) : String :=
  if pystartswith subject ("[" ++ filter_tag ++ "] ") then subject
  else "[" ++ filter_tag ++ "] " ++ subject

/-- The per-message loop of the tag branch of `filter_mails` (utils.py
lines 151-162): clone with tagged subject, append with SEEN (and
ANSWERED when an auto-response is configured), then send the
auto-response.  `appendFails` and `sendFails` inject collaborator
failures; a failing call performs no side effect, raises, and aborts
the loop.  Returns the trace of performed events and whether the loop
completed. -/
def tagModeLoop (cfg : FilterConfig) (appendFails sendFails : MailMessage → Bool) :
    List MailMessage → List MailEvent × Bool
  | [] => ([], true)
  | msg :: rest =>
    if appendFails msg then ([], false)
    else
      let ev := MailEvent.append (taggedSubject cfg.filter_tag msg.subject)
        (if cfg.filtered_folder ≠ "" then cfg.filtered_folder else cfg.inbox_folder)
        msg.date true (cfg.autoresponse_filename ≠ "")
      if cfg.autoresponse_filename ≠ "" then
        if sendFails msg then ([ev], false)
        else
          let r := tagModeLoop cfg appendFails sendFails rest
          (ev :: MailEvent.sendAutoResponse msg.from_ ("Re: " ++ msg.subject) :: r.1, r.2)
      else
        let r := tagModeLoop cfg appendFails sendFails rest
        (ev :: r.1, r.2)

/-- The auto-response loop of the move branch of `filter_mails`
(utils.py lines 176-177). -/
def sendLoop (sendFails : MailMessage → Bool) :
    List MailMessage → List MailEvent × Bool
  | [] => ([], true)
  | msg :: rest =>
    if sendFails msg then ([], false)
    else
      let r := sendLoop sendFails rest
      (MailEvent.sendAutoResponse msg.from_ ("Re: " ++ msg.subject) :: r.1, r.2)

/-- `filter_mails` (utils.py lines 132-181) as a trace of side effects
plus a completion flag.  Tag branch: per-message clone loop, then
select the inbox folder and delete all originals in one batch.  Move
branch: select the inbox folder, send the auto-responses (if
configured) then flag all as ANSWERED in one batch, then mark seen and
move in single batch calls. -/
def filter_mails (cfg : FilterConfig) (appendFails sendFails : MailMessage → Bool)
    (filtered_mails : List MailMessage) : List MailEvent × Bool :=
  if cfg.filter_tag ≠ "" then
    let r := tagModeLoop cfg appendFails sendFails filtered_mails
    if r.2 then
      (r.1 ++ [MailEvent.setFolder cfg.inbox_folder,
               MailEvent.deleteBatch (filtered_mails.map MailMessage.uid)], true)
    else r
  else
    if cfg.autoresponse_filename ≠ "" then
      let s := sendLoop sendFails filtered_mails
      if s.2 then
        (MailEvent.setFolder cfg.inbox_folder :: s.1 ++
          [MailEvent.flagAnswered (filtered_mails.map MailMessage.uid),
           MailEvent.seenBatch (filtered_mails.map MailMessage.uid),
           MailEvent.moveBatch (filtered_mails.map MailMessage.uid) cfg.filtered_folder], true)
      else (MailEvent.setFolder cfg.inbox_folder :: s.1, false)
    else
      (MailEvent.setFolder cfg.inbox_folder ::
        [MailEvent.seenBatch (filtered_mails.map MailMessage.uid),
         MailEvent.moveBatch (filtered_mails.map MailMessage.uid) cfg.filtered_folder], true)

/-- An event that marks a message or its clone as ANSWERED: an append
whose flag set contains ANSWERED, or the batch ANSWERED flag call. -/
def isAnsweredMark : MailEvent → Bool
  | MailEvent.append _ _ _ _ answered => answered
  | MailEvent.flagAnswered _ => true
  | _ => false

/-- An auto-response send event. -/
def isAutoResponseSend : MailEvent → Bool
  | MailEvent.sendAutoResponse _ _ => true
  | _ => false

/- ================= Folder Provisioner (utils.py lines 207-239) ======= -/

/-- The IMAP folder state the provisioner touches: which folder names
exist, and which `folder.create` calls the server rejects with
`MailboxFolderCreateError` (nesting unsupported). -/
structure Store where
  existing : List String
  failCreate : List String
deriving DecidableEq, Repr

/-- Calls the provisioner makes on the store. -/
inductive FolderOp where
  | existsCheck (p : String)
  | createCall (p : String)
deriving DecidableEq, Repr

/-- `account.folder.exists`. -/
def folderExists (st : Store) (p : String) : Bool :=
  st.existing.contains p

/-- Python `str.split` for a single-character separator, on character
sequences: split at every occurrence of the separator (consecutive
separators produce empty segments, the empty string yields one empty
segment). -/
def splitChars (sepc : Char) : List Char → List (List Char)
  | [] => [[]]
  | c :: rest =>
    match splitChars sepc rest with
    | [] => [[]]
    | seg :: segs =>
      if c = sepc then [] :: seg :: segs else (c :: seg) :: segs

/-- Python `path.split(sep)` with the provisioner's single-character
separator. -/
def pysplit (path : String) (sepc : Char) : List String :=
  (splitChars sepc path.data).map String.mk

/-- The Python expression
`prev_folder + sep + folder if prev_folder else folder`. -/
def joinIf (prev sep folder : String) : String :=
  if prev ≠ "" then prev ++ sep ++ folder else folder

/-- The `for folder in path.split(sep)` loop of
`_create_folders_if_not_exist` (utils.py lines 219-233), with the
store state, the `prev_folder` and `sep` variables and the call trace
made explicit.  `none` models the uncaught
`MailboxFolderCreateError` of the fallback create (fatal).  A create
call that raises performs no store mutation but is still a performed
call, so it is recorded in the trace. -/
def createFoldersLoop (st : Store) (segs : List String) (prev sep : String)
    (tr : List FolderOp) : Option (Store × String × String × List FolderOp) :=
  match segs with
  | [] => some (st, prev, sep, tr)
  | folder :: rest =>
    let target := joinIf prev sep folder
    let tr1 := tr ++ [FolderOp.existsCheck target]
    if folderExists st target then
      createFoldersLoop st rest (joinIf prev sep folder) sep tr1
    else
      let tr2 := tr1 ++ [FolderOp.createCall target]
      if st.failCreate.contains target then
        -- MailboxFolderCreateError: fallback, sep becomes '|'
        let target2 := joinIf prev "|" folder
        let tr3 := tr2 ++ [FolderOp.existsCheck target2]
        if folderExists st target2 then
          createFoldersLoop st rest (joinIf prev "|" folder) "|" tr3
        else
          let tr4 := tr3 ++ [FolderOp.createCall target2]
          if st.failCreate.contains target2 then none
          else
            createFoldersLoop { st with existing := target2 :: st.existing }
              rest (joinIf prev "|" folder) "|" tr4
      else
        createFoldersLoop { st with existing := target :: st.existing }
          rest (joinIf prev sep folder) sep tr2

/-- `_create_folders_if_not_exist` (utils.py lines 207-239): walk the
segments of `path` split on the default separator `'/'`, then, when the
fallback separator was taken, write the resolved `prev_folder` back to
the configuration (the third component: the value written to the
`key_setting` entry, `none` when no write-back happens). -/
def create_folders_if_not_exist (st : Store) (path : String) :
    Option (Store × String × Option String × List FolderOp) :=
  match createFoldersLoop st (pysplit path '/') "" "/" [] with
  | none => none
  | some (st1, prev, sep, tr) =>
    some (st1, prev, if sep = "|" then some prev else none, tr)

/-- The cumulative paths the loop checks while no create is needed:
`joinIf`-accumulated targets of each segment. -/
def cumPaths (segs : List String) (prev sep : String) : List String :=
  match segs with
  | [] => []
  | f :: rest => joinIf prev sep f :: cumPaths rest (joinIf prev sep f) sep

/-- The value of `prev_folder` after walking all segments with a fixed
separator. -/
def finalPath (segs : List String) (prev sep : String) : String :=
  segs.foldl (fun pv f => joinIf pv sep f) prev

/- ================= Concrete fixtures ================================= -/

/-- A concrete mail used by witnesses and counterexamples. -/
def m0 : MailMessage :=
  { uid := "1", from_ := "alice@example.org", subject := "Hello",
    date := 0, text := "hi", html := "", date_str := "2021-01-01" }

/-- A tag-mode configuration with auto-response enabled. -/
def cfgTag : FilterConfig :=
  { filtered_folder := "Filtered", filter_tag := "VAC",
    inbox_folder := "INBOX", autoresponse_filename := "ar.txt" }

/-- A move-mode configuration with auto-response enabled. -/
def cfgMove : FilterConfig :=
  { filtered_folder := "Filtered", filter_tag := "",
    inbox_folder := "INBOX", autoresponse_filename := "ar.txt" }

/-- Failure injection: no append ever fails. -/
def afNone : MailMessage → Bool := fun _ => false

/-- Failure injection: no send ever fails. -/
def sfNone : MailMessage → Bool := fun _ => false

/- ================= Helper lemmas ===================================== -/

theorem scanNegatives_fst_iff (c : List ℚ) (negex : List (List ℚ)) (t : ℚ) :
    (scanNegatives c negex t).1 = true ↔ ∃ n ∈ negex, t < inner_product c n := by
  induction negex with
  | nil => simp [scanNegatives]
  | cons n rest ih =>
    by_cases h : t < inner_product c n
    · simp [scanNegatives, h]
    · simp [scanNegatives, h, ih]

theorem categorizeFilter_sublist (pairs : List (MailMessage × List ℚ))
    (ex negex : List (List ℚ)) (t : ℚ) :
    List.Sublist (categorizeFilter pairs ex negex t) (pairs.map Prod.fst) := by
  induction pairs with
  | nil => simp [categorizeFilter]
  | cons me rest ih =>
    obtain ⟨m, emb⟩ := me
    by_cases h : (scanPositives emb ex negex t).1 = true
    · simpa [categorizeFilter, h] using List.Sublist.cons₂ m ih
    · simp only [categorizeFilter, h, if_false, Bool.false_eq_true, if_neg, List.map_cons]
      exact List.Sublist.cons m ih

theorem categorizeFilter_nil_ex (pairs : List (MailMessage × List ℚ))
    (negex : List (List ℚ)) (t : ℚ) :
    categorizeFilter pairs [] negex t = [] := by
  induction pairs with
  | nil => rfl
  | cons me rest ih =>
    obtain ⟨m, emb⟩ := me
    simp [categorizeFilter, scanPositives, ih]

/- ================= Claim theorems ==================================== -/

/-- Claim C1: for every candidate vector, exemplar set and threshold in
(0,1), the classifier loop of `categorize` marks the candidate as
matched if and only if some positive exemplar's inner product exceeds
the threshold and no negative exemplar's inner product exceeds it (the
positive scan stops at the first qualifying exemplar, so existence is
exactly what it decides); with an empty positive list the existential
is vacuous, so no candidate is ever matched, and the function is total,
so no error is raised. -/
theorem C1_classifier_matched_iff (c : List ℚ) (ex negex : List (List ℚ)) (t : ℚ)
    (ht0 : 0 < t) (ht1 : t < 1) :
    (scanPositives c ex negex t).1 = true ↔
      (∃ p ∈ ex, t < inner_product c p) ∧ ∀ n ∈ negex, ¬ t < inner_product c n := by
  induction ex with
  | nil => simp [scanPositives]
  | cons p rest ih =>
    by_cases h : t < inner_product c p
    · simp only [scanPositives, h, if_pos, Bool.not_eq_true', List.mem_cons]
      constructor
      · intro hneg
        refine ⟨⟨p, Or.inl rfl, h⟩, ?_⟩
        intro n hn hcon
        have h2 := (scanNegatives_fst_iff c negex t).2 ⟨n, hn, hcon⟩
        rw [hneg] at h2
        exact Bool.false_ne_true h2
      · intro hc
        cases hfst : (scanNegatives c negex t).1 with
        | false => rfl
        | true =>
          obtain ⟨n, hn, hcon⟩ := (scanNegatives_fst_iff c negex t).1 hfst
          exact absurd hcon (hc.2 n hn)
    · simp [scanPositives, h, ih]

/-- Claim C1 witness: the negative-override instance from the spec — a
candidate with positive similarity 9/10 and negative similarity 19/20
under threshold 1/2. -/
theorem C1_classifier_matched_iff_witness :
    (scanPositives [(1 : ℚ)] [[(9 : ℚ)/10]] [[(19 : ℚ)/20]] ((1 : ℚ)/2)).1 = true ↔
      (∃ p ∈ [[(9 : ℚ)/10]], (1 : ℚ)/2 < inner_product [(1 : ℚ)] p) ∧
        ∀ n ∈ [[(19 : ℚ)/20]], ¬ (1 : ℚ)/2 < inner_product [(1 : ℚ)] n :=
  C1_classifier_matched_iff [(1 : ℚ)] [[(9 : ℚ)/10]] [[(19 : ℚ)/20]] ((1 : ℚ)/2)
    (by norm_num) (by norm_num)

/-- Claim C7: for a candidate for which no positive exemplar's inner
product exceeds the threshold, the classifier loop performs zero
inner-product computations against negative exemplars (the count
component of `scanPositives` instruments exactly those computations). -/
theorem C7_no_positive_no_negative_evals (c : List ℚ) (ex negex : List (List ℚ)) (t : ℚ)
    (h : ∀ p ∈ ex, ¬ t < inner_product c p) :
    (scanPositives c ex negex t).2 = 0 := by
  induction ex with
  | nil => rfl
  | cons p rest ih =>
    have hp := h p (by simp)
    simp only [scanPositives, hp, if_neg, gt_iff_lt]
    exact ih (fun q hq => h q (by simp [hq]))

/-- Claim C7 witness: the spec's call-count scenario — positive
similarity 3/10 under threshold 99/100, one negative exemplar. -/
theorem C7_no_positive_no_negative_evals_witness :
    (∀ p ∈ [[(1 : ℚ)]], ¬ (99 : ℚ)/100 < inner_product [(3 : ℚ)/10] p) ∧
      (scanPositives [(3 : ℚ)/10] [[(1 : ℚ)]] [[(1 : ℚ)]] ((99 : ℚ)/100)).2 = 0 :=
  ⟨by norm_num [inner_product],
   C7_no_positive_no_negative_evals [(3 : ℚ)/10] [[(1 : ℚ)]] [[(1 : ℚ)]] ((99 : ℚ)/100)
     (by norm_num [inner_product])⟩

/-- Claim C10: whenever `categorize` succeeds, the returned list of
filtered mails is a subsequence of the input candidate list
`cat_mails`: matched candidates appear in fetch order and each input
position contributes at most one output element, however many positive
exemplars it is similar to. -/
theorem C10_filtered_sublist (embed : Option String → List ℚ) (getText : String → String)
    (threshold : ℚ) (use_builtin_embs : Bool)
    (builtin_ex builtin_negex : List (List ℚ))
    (examples neg_examples cat_mails fm : List MailMessage)
    (h : categorize embed getText threshold use_builtin_embs builtin_ex builtin_negex
          examples neg_examples cat_mails = Except.ok fm) :
    List.Sublist fm cat_mails := by
  unfold categorize at h
  split at h
  · exact absurd h (by simp)
  · rw [Except.ok.injEq] at h
    subst h
    have hlen : cat_mails.length ≤ ((_extract_text getText cat_mails).map embed).length := by
      simp [_extract_text]
    have hfst := List.map_fst_zip cat_mails ((_extract_text getText cat_mails).map embed) hlen
    calc List.Sublist _ ((cat_mails.zip ((_extract_text getText cat_mails).map embed)).map Prod.fst) :=
          categorizeFilter_sublist _ _ _ _
      _ = cat_mails := hfst

/-- Claim C10 witness: one candidate identical to the single positive
example is matched and returned, a subsequence of the input. -/
theorem C10_filtered_sublist_witness :
    categorize (fun _ => [(1 : ℚ)]) id ((1 : ℚ)/2) false [] [] [m0] [] [m0] =
      Except.ok [m0] ∧ List.Sublist [m0] [m0] :=
  ⟨by norm_num [categorize, _extract_text, categorizeFilter, scanPositives,
     scanNegatives, inner_product],
   C10_filtered_sublist (fun _ => [(1 : ℚ)]) id ((1 : ℚ)/2) false [] [] [m0] [] [m0] [m0]
     (by norm_num [categorize, _extract_text, categorizeFilter, scanPositives,
       scanNegatives, inner_product])⟩

/-- Claim C8 counterexample: with no positive example mails fetched and
the built-in fallback enabled but holding an empty positive vector set,
`categorize` does not raise a settings error — it silently returns the
empty match list even though a candidate is present.  This refutes the
claim's "disabled or empty" disjunct. -/
theorem C8_counterexample_builtin_empty_silent :
    categorize (fun _ => [(1 : ℚ)]) id ((1 : ℚ)/2) true [] [] [] [] [m0] =
      Except.ok [] := by
  rfl

/-- Claim C8 (amended): `categorize` fails fast with a settings error —
before any candidate is compared — exactly when no positive example
mails were fetched and the built-in fallback is disabled; when the
fallback is enabled but its positive vectors are empty, no error is
raised and the run proceeds as an empty-match classifier. -/
theorem C8_amended_fail_fast (embed : Option String → List ℚ) (getText : String → String)
    (threshold : ℚ) (builtin_ex builtin_negex : List (List ℚ))
    (neg_examples cat_mails : List MailMessage) :
    categorize embed getText threshold false builtin_ex builtin_negex
        [] neg_examples cat_mails = Except.error "Fehlende Trainingsdaten" ∧
      (builtin_ex = [] →
        categorize embed getText threshold true builtin_ex builtin_negex
          [] neg_examples cat_mails = Except.ok []) := by
  constructor
  · simp [categorize]
  · intro hb
    subst hb
    simp [categorize, _extract_text, categorizeFilter_nil_ex]

/-- Claim C8 witness: concrete runs of the two branches of the amended
claim. -/
theorem C8_amended_fail_fast_witness :
    categorize (fun _ => [(1 : ℚ)]) id ((1 : ℚ)/2) false [] [] [] [] [m0] =
        Except.error "Fehlende Trainingsdaten" ∧
      categorize (fun _ => [(1 : ℚ)]) id ((1 : ℚ)/2) true [] [] [] [] [m0] =
        Except.ok [] :=
  ⟨(C8_amended_fail_fast (fun _ => [(1 : ℚ)]) id ((1 : ℚ)/2) [] [] [] [m0]).1,
   (C8_amended_fail_fast (fun _ => [(1 : ℚ)]) id ((1 : ℚ)/2) [] [] [] [m0]).2 rfl⟩

theorem isPrefixOf_self_append (p s : List Char) : p.isPrefixOf (p ++ s) = true := by
  induction p with
  | nil => simp
  | cons c rest ih => simp [List.isPrefixOf, ih]

theorem sendLoop_no_answered_mark (sf : MailMessage → Bool) (msgs : List MailMessage) :
    ∀ e ∈ (sendLoop sf msgs).1, isAnsweredMark e = false := by
  induction msgs with
  | nil => intro e he; simp [sendLoop] at he
  | cons msg rest ih =>
    intro e he
    by_cases hs : sf msg = true
    · simp [sendLoop, hs] at he
    · rw [Bool.not_eq_true] at hs
      simp [sendLoop, hs] at he
      rcases he with rfl | he
      · rfl
      · exact ih e he

theorem tagModeLoop_no_delete (cfg : FilterConfig) (af sf : MailMessage → Bool)
    (msgs : List MailMessage) :
    ∀ uids, MailEvent.deleteBatch uids ∉ (tagModeLoop cfg af sf msgs).1 := by
  induction msgs with
  | nil => intro uids h; simp [tagModeLoop] at h
  | cons msg rest ih =>
    intro uids h
    by_cases ha : af msg = true
    · simp [tagModeLoop, ha] at h
    · rw [Bool.not_eq_true] at ha
      by_cases hr : cfg.autoresponse_filename ≠ ""
      · by_cases hs : sf msg = true
        · simp [tagModeLoop, ha, hr, hs] at h
        · rw [Bool.not_eq_true] at hs
          simp [tagModeLoop, ha, hr, hs] at h
          exact ih uids h
      · rw [ne_eq, not_not] at hr
        simp [tagModeLoop, ha, hr] at h
        exact ih uids h

theorem createFoldersLoop_all_exist (st : Store) (segs : List String) :
    ∀ (prev sep : String) (tr : List FolderOp),
      (∀ p ∈ cumPaths segs prev sep, folderExists st p = true) →
      createFoldersLoop st segs prev sep tr =
        some (st, finalPath segs prev sep, sep,
          tr ++ (cumPaths segs prev sep).map FolderOp.existsCheck) := by
  induction segs with
  | nil =>
    intro prev sep tr _
    simp [createFoldersLoop, finalPath, cumPaths]
  | cons f rest ih =>
    intro prev sep tr h
    have hf : folderExists st (joinIf prev sep f) = true := h _ (by simp [cumPaths])
    rw [createFoldersLoop]
    simp only [hf, if_pos]
    rw [ih _ _ _ (fun p hp => h p (by simp [cumPaths]; exact Or.inr hp))]
    simp [cumPaths, finalPath, List.append_assoc]

/-- Claim C2 counterexample: in tag mode with an auto-response
configured, the clone of a matched message is appended with the
ANSWERED flag already set (the first event of the trace) strictly
before the auto-response is sent (the second event), so the
auto-response send does not happen before the message's clone is
flagged as answered. -/
theorem C2_counterexample_answered_before_send :
    ((filter_mails cfgTag afNone sfNone [m0]).1.findIdx isAnsweredMark <
      (filter_mails cfgTag afNone sfNone [m0]).1.findIdx isAutoResponseSend) ∧
    (∃ e ∈ (filter_mails cfgTag afNone sfNone [m0]).1, isAnsweredMark e = true) ∧
    (∃ e ∈ (filter_mails cfgTag afNone sfNone [m0]).1, isAutoResponseSend e = true) := by
  decide

/-- Claim C2 (amended): when an auto-response template is configured,
in move mode every auto-response is sent before the single batch
flag-as-answered mutation (the sends precede it in the trace, and no
event of the send loop marks anything answered); in tag mode, however,
the clone of each matched message is appended with the ANSWERED flag
already set, and only then is the auto-response sent. -/
theorem C2_amended_response_ordering (cfgM cfgT : FilterConfig)
    (af sf : MailMessage → Bool) (msgs rest : List MailMessage) (msg : MailMessage)
    (hM : cfgM.filter_tag = "") (hMa : cfgM.autoresponse_filename ≠ "")
    (hTa : cfgT.autoresponse_filename ≠ "")
    (haf : af msg = false) (hsf : sf msg = false) :
    ((sendLoop sf msgs).2 = true →
      filter_mails cfgM af sf msgs =
        (MailEvent.setFolder cfgM.inbox_folder :: (sendLoop sf msgs).1 ++
          [MailEvent.flagAnswered (msgs.map MailMessage.uid),
           MailEvent.seenBatch (msgs.map MailMessage.uid),
           MailEvent.moveBatch (msgs.map MailMessage.uid) cfgM.filtered_folder], true)) ∧
    (∀ e ∈ (sendLoop sf msgs).1, isAnsweredMark e = false) ∧
    tagModeLoop cfgT af sf (msg :: rest) =
      (MailEvent.append (taggedSubject cfgT.filter_tag msg.subject)
          (if cfgT.filtered_folder ≠ "" then cfgT.filtered_folder else cfgT.inbox_folder)
          msg.date true true ::
        MailEvent.sendAutoResponse msg.from_ ("Re: " ++ msg.subject) ::
          (tagModeLoop cfgT af sf rest).1,
       (tagModeLoop cfgT af sf rest).2) := by
  refine ⟨?_, sendLoop_no_answered_mark sf msgs, ?_⟩
  · intro h2
    simp [filter_mails, hM, hMa, h2]
  · simp [tagModeLoop, haf, hsf, hTa]

/-- Claim C2 witness: concrete instantiation of both modes with one
matched message and no injected failures. -/
theorem C2_amended_response_ordering_witness :
    (cfgMove.filter_tag = "" ∧ cfgMove.autoresponse_filename ≠ "" ∧
      cfgTag.autoresponse_filename ≠ "" ∧ afNone m0 = false ∧ sfNone m0 = false ∧
      (sendLoop sfNone [m0]).2 = true) ∧
    filter_mails cfgMove afNone sfNone [m0] =
      (MailEvent.setFolder cfgMove.inbox_folder :: (sendLoop sfNone [m0]).1 ++
        [MailEvent.flagAnswered ([m0].map MailMessage.uid),
         MailEvent.seenBatch ([m0].map MailMessage.uid),
         MailEvent.moveBatch ([m0].map MailMessage.uid) cfgMove.filtered_folder], true) ∧
    tagModeLoop cfgTag afNone sfNone [m0] =
      (MailEvent.append (taggedSubject cfgTag.filter_tag m0.subject)
          (if cfgTag.filtered_folder ≠ "" then cfgTag.filtered_folder else cfgTag.inbox_folder)
          m0.date true true ::
        MailEvent.sendAutoResponse m0.from_ ("Re: " ++ m0.subject) ::
          (tagModeLoop cfgTag afNone sfNone []).1,
       (tagModeLoop cfgTag afNone sfNone []).2) :=
  ⟨⟨rfl, by decide, by decide, rfl, rfl, by decide⟩,
   (C2_amended_response_ordering cfgMove cfgTag afNone sfNone [m0] [] m0
      rfl (by decide) (by decide) rfl rfl).1 (by decide),
   (C2_amended_response_ordering cfgMove cfgTag afNone sfNone [m0] [] m0
      rfl (by decide) (by decide) rfl rfl).2.2⟩

/-- Claim C3: evaluation of the text normalizer at a message with
neither a plain-text nor an HTML body.  The code emits the warning
naming the message's subject and date, but returns `None` (here
`none`), not an empty string, contradicting the claim's (and the
declared `-> str` interface's) empty-string return. -/
theorem C3_empty_mail_returns_none :
    parse_to_normalized_text id
      { uid := "1", from_ := "a@b", subject := "Betreff", date := 0,
        text := "", html := "", date_str := "2021-01-01" } =
      (none, some "Mail is completely empty: \"Betreff\", 2021-01-01") := by
  rfl

/-- Claim C5: in tag mode, if the per-message clone/auto-response loop
fails at any message, the trace of performed operations contains no
delete at all; when the loop completes for every matched message, the
trace is the loop's own events followed by selecting the inbox folder
and exactly one batch delete of all originals — no delete occurs inside
the loop. -/
theorem C5_tag_delete_after_loop (cfg : FilterConfig) (af sf : MailMessage → Bool)
    (msgs : List MailMessage) (htag : cfg.filter_tag ≠ "") :
    ((filter_mails cfg af sf msgs).2 = false →
      ∀ uids, MailEvent.deleteBatch uids ∉ (filter_mails cfg af sf msgs).1) ∧
    ((filter_mails cfg af sf msgs).2 = true →
      (filter_mails cfg af sf msgs).1 =
        (tagModeLoop cfg af sf msgs).1 ++
          [MailEvent.setFolder cfg.inbox_folder,
           MailEvent.deleteBatch (msgs.map MailMessage.uid)] ∧
      ∀ uids, MailEvent.deleteBatch uids ∉ (tagModeLoop cfg af sf msgs).1) := by
  by_cases hl : (tagModeLoop cfg af sf msgs).2 = true
  · constructor
    · intro hfail
      simp [filter_mails, htag, hl] at hfail
    · intro _
      refine ⟨?_, tagModeLoop_no_delete cfg af sf msgs⟩
      simp [filter_mails, htag, hl]
  · rw [Bool.not_eq_true] at hl
    constructor
    · intro _
      have heq : filter_mails cfg af sf msgs = tagModeLoop cfg af sf msgs := by
        simp [filter_mails, htag, hl]
      rw [heq]
      exact tagModeLoop_no_delete cfg af sf msgs
    · intro hok
      rw [show filter_mails cfg af sf msgs = tagModeLoop cfg af sf msgs by
        simp [filter_mails, htag, hl], hl] at hok
      exact absurd hok (by simp)

/-- Claim C5 witness: the tag-mode configuration on one message with no
injected failures. -/
theorem C5_tag_delete_after_loop_witness :
    cfgTag.filter_tag ≠ "" ∧
    (((filter_mails cfgTag afNone sfNone [m0]).2 = false →
      ∀ uids, MailEvent.deleteBatch uids ∉ (filter_mails cfgTag afNone sfNone [m0]).1) ∧
    ((filter_mails cfgTag afNone sfNone [m0]).2 = true →
      (filter_mails cfgTag afNone sfNone [m0]).1 =
        (tagModeLoop cfgTag afNone sfNone [m0]).1 ++
          [MailEvent.setFolder cfgTag.inbox_folder,
           MailEvent.deleteBatch ([m0].map MailMessage.uid)] ∧
      ∀ uids, MailEvent.deleteBatch uids ∉ (tagModeLoop cfgTag afNone sfNone [m0]).1)) :=
  ⟨by decide, C5_tag_delete_after_loop cfgTag afNone sfNone [m0] (by decide)⟩

/-- Claim C6: the subject rewrite of the tag-mode clone loop is
idempotent — the `"[<tag>] "` prefix is prepended only when the
subject does not already start with it, so applying the rewrite to an
already-tagged subject returns it unchanged and a second application
never double-prefixes. -/
theorem C6_tagging_idempotent (tag subject : String) :
    taggedSubject tag (taggedSubject tag subject) = taggedSubject tag subject := by
  by_cases h : pystartswith subject ("[" ++ tag ++ "] ") = true
  · simp [taggedSubject, h]
  · have hpre : pystartswith ("[" ++ tag ++ "] " ++ subject) ("[" ++ tag ++ "] ") = true := by
      unfold pystartswith
      have hdata : ("[" ++ tag ++ "] " ++ subject).data =
          ("[" ++ tag ++ "] ").data ++ subject.data := by
        simp
      rw [hdata]
      exact isPrefixOf_self_append _ _
    rw [Bool.not_eq_true] at h
    simp [taggedSubject, h, hpre]

/-- Claim C9: when every cumulative segment of the path already exists
in the store, the folder provisioner performs existence checks only:
the store is returned unchanged, no value is written back to the
configuration, and the call trace consists of the existence checks of
the cumulative paths — it contains no create call. -/
theorem C9_provisioner_idempotent (st : Store) (path : String)
    (h : ∀ p ∈ cumPaths (pysplit path '/') "" "/", folderExists st p = true) :
    create_folders_if_not_exist st path =
      some (st, finalPath (pysplit path '/') "" "/", none,
        (cumPaths (pysplit path '/') "" "/").map FolderOp.existsCheck) ∧
    ∀ p, FolderOp.createCall p ∉
      (cumPaths (pysplit path '/') "" "/").map FolderOp.existsCheck := by
  constructor
  · unfold create_folders_if_not_exist
    rw [createFoldersLoop_all_exist st (pysplit path '/') "" "/" [] h]
    simp
  · intro p hp
    simp [List.mem_map] at hp

/-- Claim C9 witness: a store already holding the cumulative paths of
"A/B"; the second invocation performs only the two existence checks. -/
theorem C9_provisioner_idempotent_witness :
    (∀ p ∈ cumPaths (pysplit "A/B" '/') "" "/",
      folderExists ⟨["A", "A/B"], []⟩ p = true) ∧
    (create_folders_if_not_exist ⟨["A", "A/B"], []⟩ "A/B" =
      some (⟨["A", "A/B"], []⟩, finalPath (pysplit "A/B" '/') "" "/", none,
        (cumPaths (pysplit "A/B" '/') "" "/").map FolderOp.existsCheck) ∧
    ∀ p, FolderOp.createCall p ∉
      (cumPaths (pysplit "A/B" '/') "" "/").map FolderOp.existsCheck) :=
  ⟨by decide, C9_provisioner_idempotent ⟨["A", "A/B"], []⟩ "A/B" (by decide)⟩

/-- Claim C4 counterexample: provisioning "A/B/C" against a store that
rejects the nested create of "A/B/C" (after "A" and "A/B" were walked
with the default separator).  The code does not retry the entire walk
with the fallback separator: it switches in place, so the resolved path
is "A/B|C", which still contains the original separator '/' alongside
the fallback '|' — refuting the claim that the final resolved path
contains only the fallback separator. -/
theorem C4_counterexample_mixed_separators :
    create_folders_if_not_exist ⟨[], ["A/B/C"]⟩ "A/B/C" =
      some (⟨["A/B|C", "A/B", "A"], ["A/B/C"]⟩, "A/B|C", some "A/B|C",
        [FolderOp.existsCheck "A", FolderOp.createCall "A",
         FolderOp.existsCheck "A/B", FolderOp.createCall "A/B",
         FolderOp.existsCheck "A/B/C", FolderOp.createCall "A/B/C",
         FolderOp.existsCheck "A/B|C", FolderOp.createCall "A/B|C"]) ∧
    '/' ∈ "A/B|C".data ∧ '|' ∈ "A/B|C".data := by
  constructor
  · rfl
  · decide

/-- Claim C4 (amended): when hierarchical creation is rejected with a
nesting-unsupported failure at some segment, the provisioner switches
the separator to the fallback '|' at that segment and continues the
walk in place (it does not restart), so the prefix built before the
failure keeps the original separator; for a two-segment path "A/B"
rejected at the second segment this yields the flat name "A|B", the
store gains "A|B" (and the first segment "A") and the resolved path
"A|B" is persisted back to configuration.  Only one separator switch is
attempted per call: a second rejection is fatal. -/
theorem C4_amended_inplace_fallback (st : Store)
    (h1 : "A" ∉ st.existing) (h2 : "A" ∉ st.failCreate)
    (h3 : "A/B" ∉ st.existing) (h4 : "A/B" ∈ st.failCreate)
    (h5 : "A|B" ∉ st.existing) (h6 : "A|B" ∉ st.failCreate) :
    create_folders_if_not_exist st "A/B" =
      some ({ st with existing := "A|B" :: "A" :: st.existing }, "A|B", some "A|B",
        [FolderOp.existsCheck "A", FolderOp.createCall "A",
         FolderOp.existsCheck "A/B", FolderOp.createCall "A/B",
         FolderOp.existsCheck "A|B", FolderOp.createCall "A|B"]) := by
  have hsplit : pysplit "A/B" '/' = ["A", "B"] := rfl
  unfold create_folders_if_not_exist
  rw [hsplit]
  rw [createFoldersLoop, createFoldersLoop]
  simp [folderExists, joinIf, h1, h2, h3, h4, h5, h6, createFoldersLoop]

/-- Claim C4 witness: the concrete store rejecting only the nested
create of "A/B". -/
theorem C4_amended_inplace_fallback_witness :
    ("A" ∉ (⟨[], ["A/B"]⟩ : Store).existing ∧
      "A" ∉ (⟨[], ["A/B"]⟩ : Store).failCreate ∧
      "A/B" ∉ (⟨[], ["A/B"]⟩ : Store).existing ∧
      "A/B" ∈ (⟨[], ["A/B"]⟩ : Store).failCreate ∧
      "A|B" ∉ (⟨[], ["A/B"]⟩ : Store).existing ∧
      "A|B" ∉ (⟨[], ["A/B"]⟩ : Store).failCreate) ∧
    create_folders_if_not_exist ⟨[], ["A/B"]⟩ "A/B" =
      some (⟨["A|B", "A"], ["A/B"]⟩, "A|B", some "A|B",
        [FolderOp.existsCheck "A", FolderOp.createCall "A",
         FolderOp.existsCheck "A/B", FolderOp.createCall "A/B",
         FolderOp.existsCheck "A|B", FolderOp.createCall "A|B"]) :=
  ⟨⟨by decide, by decide, by decide, by decide, by decide, by decide⟩,
   C4_amended_inplace_fallback ⟨[], ["A/B"]⟩ (by decide) (by decide) (by decide)
     (by decide) (by decide) (by decide)⟩

end MailReceptionist
